import Mathlib

/-!
Verification of the UX audit orchestration pipeline (UXMaturityAnalysis).

This file shallowly embeds the parts of the repository that the checked
properties concern:

* `extract_competitor_name` (src/src/utils/audit_organizer.py)
* the capture-result classification of
  `UXAnalysisOrchestrator.capture_competitor_screenshots` (src/main.py)
* the two-pass evaluator `analyze_competitor_from_screenshots`
  with its observation-cache reuse policy (src/main.py)
* the retry coordinator `_retry_failed_competitors` (src/main.py)
* the run orchestration `analyze_competitors` and
  `generate_audit_summary` (src/main.py, src/src/utils/audit_organizer.py)
* the rate-limit delay constants and the parse-failure diagnostics
  behaviour of the model client (src/src/analyzers/claude_analyzer.py)

External collaborators (browser automation, the model API, the console)
are modelled as explicit oracle parameters; file-system state is passed
explicitly.
-/

namespace UXAudit

/-! ## String utilities shared by the embedding

Python string primitives (`str.strip`, `str.find`, slicing) modelled on
`List Char`. -/

/-- Python `str.find(pat)` on character lists: index of the first
occurrence of `pat`, or `none` (Python returns `-1`). -/
def findSub (pat : List Char) : List Char → Option Nat
  | [] => if pat.isEmpty then some 0 else none
  | c :: rest =>
    if pat.isPrefixOf (c :: rest) then some 0
    else (findSub pat rest).map (· + 1)

/-- Python `str.strip()` (whitespace from both ends). -/
def pyStrip (l : List Char) : List Char :=
  ((l.dropWhile Char.isWhitespace).reverse.dropWhile Char.isWhitespace).reverse

/-! ## `extract_competitor_name` (src/src/utils/audit_organizer.py:734-776) -/

/-- Characters kept by `re.sub(r"[^a-z0-9-]", "", name.lower())`. -/
def isAllowed (c : Char) : Bool :=
  ('a' ≤ c && c ≤ 'z') || ('0' ≤ c && c ≤ '9') || c == '-'

/-- Characters legal in a URL scheme for `urllib.parse.urlparse`. -/
def isSchemeChar (c : Char) : Bool :=
  c.isAlphanum || c == '+' || c == '-' || c == '.'

/-- Drop a leading `scheme:` as `urlparse` does: the text before the first
`:` must be non-empty, start with a letter, and consist of scheme
characters. -/
def dropUrlScheme (u : List Char) : List Char :=
  match u.findIdx? (fun c => c == ':') with
  | none => u
  | some i =>
    match u.take i with
    | [] => u
    | c :: cs =>
      if c.isAlpha && (c :: cs).all isSchemeChar then u.drop (i + 1) else u

/-- `urlparse(url).netloc or urlparse(url).path`: the authority after
`//` when present and non-empty, otherwise the path (query and fragment
stripped). -/
def urlNetlocOrPath (u : List Char) : List Char :=
  let rest := dropUrlScheme u
  if ['/', '/'].isPrefixOf rest then
    let afterSlashes := rest.drop 2
    let netloc := afterSlashes.takeWhile (fun c => !(c == '/' || c == '?' || c == '#'))
    if netloc.isEmpty then
      (afterSlashes.dropWhile (fun c => !(c == '/' || c == '?' || c == '#'))).takeWhile
        (fun c => !(c == '?' || c == '#'))
    else netloc
  else
    rest.takeWhile (fun c => !(c == '?' || c == '#'))

/-- The alternatives of `re.sub(r"^(www\.|m\.|shop\.|store\.|secure\.)", "", hostname)`,
tried in the regex's alternation order. -/
def hostLeads : List (List Char) :=
  ["www.".data, "m.".data, "shop.".data, "store.".data, "secure.".data]

/-- Remove one matching common hostname lead, if any. -/
def stripHostLead (h : List Char) : List Char :=
  match hostLeads.find? (fun p => p.isPrefixOf h) with
  | some p => h.drop p.length
  | none => h

/-- Python `name.strip("-")`: remove hyphens from both ends. -/
def stripEdgeHyphens (l : List Char) : List Char :=
  ((l.dropWhile (· == '-')).reverse.dropWhile (· == '-')).reverse

/-- The sanitized core of `extract_competitor_name` before the fallback:
hostname, lead stripped, first dot-separated label, lowercased, filtered
to `[a-z0-9-]`, hyphens stripped from the ends. -/
def sanitizedCore (url : String) : List Char :=
  let hostname := stripHostLead (urlNetlocOrPath url.data)
  let label := hostname.takeWhile (fun c => !(c == '.'))
  stripEdgeHyphens ((label.map Char.toLower).filter isAllowed)

/-- `extract_competitor_name` (src/src/utils/audit_organizer.py:734-776). -/
def extract_competitor_name (url : String) : String :=
  let name := sanitizedCore url
  if name.isEmpty then "competitor" else ⟨name⟩

/-! ### Character-level lemmas for the sanitizer -/

theorem head_dropWhile_false (p : Char → Bool) :
    ∀ (l : List Char) (c : Char), (l.dropWhile p).head? = some c → p c = false := by
  intro l
  induction l with
  | nil => intro c h; simp [List.dropWhile] at h
  | cons a t ih =>
    intro c h
    by_cases hpa : p a
    · rw [List.dropWhile_cons_of_pos hpa] at h
      exact ih c h
    · rw [List.dropWhile_cons_of_neg hpa] at h
      simp at h
      subst h
      exact Bool.of_not_eq_true hpa

theorem getLast_dropWhile_eq (p : Char → Bool) :
    ∀ (l : List Char), (l.dropWhile p) ≠ [] →
      (l.dropWhile p).getLast? = l.getLast? := by
  intro l
  induction l with
  | nil => intro h; simp [List.dropWhile] at h
  | cons a t ih =>
    intro h
    by_cases hpa : p a
    · rw [List.dropWhile_cons_of_pos hpa] at h ⊢
      have ht : t ≠ [] := by
        intro he; rw [he] at h; simp [List.dropWhile] at h
      rw [ih h, List.getLast?_cons]
      cases t with
      | nil => exact absurd rfl ht
      | cons b u => simp [List.getLast?_cons]
    · rw [List.dropWhile_cons_of_neg hpa]

theorem mem_stripEdgeHyphens {c : Char} {l : List Char}
    (h : c ∈ stripEdgeHyphens l) : c ∈ l := by
  unfold stripEdgeHyphens at h
  rw [List.mem_reverse] at h
  have h1 : c ∈ (l.dropWhile (· == '-')).reverse := List.dropWhile_subset _ h
  rw [List.mem_reverse] at h1
  exact List.dropWhile_subset _ h1

theorem stripEdgeHyphens_head (l : List Char) (c : Char)
    (h : (stripEdgeHyphens l).head? = some c) : c ≠ '-' := by
  unfold stripEdgeHyphens at h
  rw [List.head?_reverse] at h
  by_cases hnil : (l.dropWhile (· == '-')).reverse.dropWhile (· == '-') = []
  · rw [hnil] at h; simp at h
  · rw [getLast_dropWhile_eq _ _ hnil, List.getLast?_reverse] at h
    have := head_dropWhile_false (· == '-') l c h
    simpa using this

theorem stripEdgeHyphens_getLast (l : List Char) (c : Char)
    (h : (stripEdgeHyphens l).getLast? = some c) : c ≠ '-' := by
  unfold stripEdgeHyphens at h
  rw [List.getLast?_reverse] at h
  have := head_dropWhile_false (· == '-') (l.dropWhile (· == '-')).reverse c h
  simpa using this

theorem sanitizedCore_allowed (url : String) :
    ∀ c ∈ sanitizedCore url, isAllowed c = true := by
  intro c hc
  have hmem := mem_stripEdgeHyphens hc
  exact (List.mem_filter.mp hmem).2

/-- C10: `extract_competitor_name` is total, and always returns a
non-empty string of lowercase letters, digits, and hyphens with no
leading or trailing hyphen; when the sanitization pipeline leaves
nothing, it returns the fallback `"competitor"`. -/
theorem extract_competitor_name_wellformed (url : String) :
    extract_competitor_name url ≠ ""
    ∧ (∀ c ∈ (extract_competitor_name url).data, isAllowed c = true)
    ∧ (extract_competitor_name url).data.head? ≠ some '-'
    ∧ (extract_competitor_name url).data.getLast? ≠ some '-'
    ∧ (sanitizedCore url = [] → extract_competitor_name url = "competitor") := by
  unfold extract_competitor_name
  by_cases hempty : (sanitizedCore url).isEmpty
  · rw [if_pos hempty]
    refine ⟨by decide, ?_, by decide, by decide, fun _ => rfl⟩
    intro c hc
    fin_cases hc <;> decide
  · rw [if_neg hempty]
    have hne : sanitizedCore url ≠ [] := by
      intro h; rw [h] at hempty; simp at hempty
    refine ⟨?_, ?_, ?_, ?_, fun h => absurd h hne⟩
    · intro h
      have : (⟨sanitizedCore url⟩ : String).data = [] := by rw [h]
      exact hne this
    · intro c hc
      exact sanitizedCore_allowed url c hc
    · intro h
      have hx : (sanitizedCore url).head? = some '-' := h
      unfold sanitizedCore at hx
      exact stripEdgeHyphens_head _ '-' hx rfl
    · intro h
      have hx : (sanitizedCore url).getLast? = some '-' := h
      unfold sanitizedCore at hx
      exact stripEdgeHyphens_getLast _ '-' hx rfl

/-- Witness for C10: a URL whose hostname sanitizes to nothing takes the
`"competitor"` fallback, and a regular URL keeps its domain label. -/
theorem extract_competitor_name_wellformed_witness :
    sanitizedCore "https://---.com/x" = []
    ∧ extract_competitor_name "https://---.com/x" = "competitor"
    ∧ extract_competitor_name "https://www.amazon.com/basket" ≠ "" :=
  ⟨by decide,
   (extract_competitor_name_wellformed "https://---.com/x").2.2.2.2 (by decide),
   (extract_competitor_name_wellformed "https://www.amazon.com/basket").1⟩

/-! ## Data model of run results

Python passes result dictionaries; the keys the pipeline reads are
modelled as one record (absent keys become the defaults used by
`dict.get`). -/

/-- One competitor of a run (name and URL), as built in `main`. -/
structure Competitor where
  name : String
  url : String
deriving DecidableEq, Repr

/-- A per-competitor result dictionary as produced by the orchestrator:
the fields read via `r.get(...)` by `analyze_competitors`, the retry
coordinator and `main`. -/
structure Entry where
  success : Bool
  site_name : String
  url : String
  error : Option String := none
  blocked : Bool := false
  skipped : Bool := false
  observation_file : Option String := none
  competitor_root : Option String := none
deriving DecidableEq, Repr

/-! ## Capture classification (src/main.py:151-176)

`capture_with_interaction` / `capture_url` return one result dictionary
per viewport; the orchestrator classifies them. -/

/-- One viewport capture result as reported by the capture collaborator
(`ScreenshotCapture`): `success`, `blocked`, `block_reason`, `filepath`. -/
structure ViewportCapture where
  success : Bool
  blocked : Bool := false
  block_reason : Option String := none
  filepath : Option String := none
deriving DecidableEq, Repr

/-- The orchestrator's classification of one round of viewport captures
(src/main.py:151-176): a failure entry when no viewport succeeded, with
a bot-detection message when some failed viewport reported `blocked`. -/
def classifyCapture (site url : String) (rs : List ViewportCapture) : Entry :=
  let failedCaptures := rs.filter (fun r => !r.success)
  let blockedCaptures := failedCaptures.filter (fun r => r.blocked)
  let successfulCaptures := rs.filter (fun r => r.success)
  if successfulCaptures.isEmpty then
    let errMsg :=
      match blockedCaptures.head? with
      | some b => "Site blocked by bot detection: " ++ b.block_reason.getD "Unknown"
      | none => "All screenshot captures failed"
    { success := false, site_name := site, url := url,
      error := some errMsg, blocked := !blockedCaptures.isEmpty }
  else
    { success := true, site_name := site, url := url }

/-! ## Two-pass evaluator (src/main.py:374-526) -/

/-- A parsed observation document (`observation.json` content),
uninterpreted by the pipeline beyond its identity. -/
structure Observation where
  raw : String
deriving DecidableEq, Repr

/-- A parsed scoring document (`analysis.json` content). -/
structure ScoreData where
  raw : String
deriving DecidableEq, Repr

/-- The model collaborator as seen through one competitor's analysis:
the outcome of `_observe_screenshots` (pass 1) and of
`analyze_screenshots` (pass 2) for this competitor. -/
structure ModelEnv where
  observe : Except String Observation
  score : Observation → Except String ScoreData

/-- The on-disk state of a competitor's `observation.json`: absent, or
present but unparseable, or present and parsing to an observation. -/
inductive CacheFile where
  | absent
  | corrupt
  | valid (obs : Observation)
deriving DecidableEq, Repr

/-- `observation_path.exists()` on the modelled cache state. -/
def CacheFile.onDisk : CacheFile → Bool
  | .absent => false
  | .corrupt => true
  | .valid _ => true

/-- Result of one `analyze_competitor_from_screenshots` call together
with its effects: the new `observation.json` state and whether pass 1
(the observation collaborator) was invoked. -/
structure AnalyzeOutput where
  result : Entry
  newCache : CacheFile
  observeInvoked : Bool
deriving Repr

/-- Pass 2 of `analyze_competitor_from_screenshots`
(src/main.py:461-517): score the (cached or fresh) observation; on
success record `observation_file = str(observation_path)` or `None`. -/
def scoreStep (env : ModelEnv) (site url : String) (obsPath : Option String)
    (obs : Observation) (cache : CacheFile) (invoked : Bool) : AnalyzeOutput :=
  match env.score obs with
  | .error e =>
    { result := { success := false, site_name := site, url := url, error := some e },
      newCache := cache, observeInvoked := invoked }
  | .ok _ =>
    { result := { success := true, site_name := site, url := url,
                  observation_file := obsPath },
      newCache := cache, observeInvoked := invoked }

/-- `analyze_competitor_from_screenshots` (src/main.py:374-526).
`competitorRoot` models `capture_data.get("competitor_paths")` (its
`root`); `skipObserve` models `capture_data.get('_skip_observe', True)`;
`cache` is the state of `observation.json` at call time.
`use_existing` holds when a path is known, the file exists, and no
refresh was forced (src/main.py:404-408); a file that fails to parse
degrades to a cache miss (src/main.py:410-419); a fresh observation is
saved when a path is known (src/main.py:445-452). -/
def analyzeFromScreenshots (env : ModelEnv) (site url : String)
    (competitorRoot : Option String) (skipObserve : Bool)
    (cache : CacheFile) : AnalyzeOutput :=
  let obsPath : Option String := competitorRoot.map (fun r => r ++ "/observation.json")
  let useExisting := obsPath.isSome && cache.onDisk && skipObserve
  let cachedObs : Option Observation :=
    if useExisting then
      match cache with
      | .valid o => some o
      | _ => none
    else none
  match cachedObs with
  | some obs => scoreStep env site url obsPath obs cache false
  | none =>
    match env.observe with
    | .error e =>
      { result := { success := false, site_name := site, url := url,
                    error := some ("Pass 1 observation failed: " ++ e) },
        newCache := cache, observeInvoked := true }
    | .ok obs =>
      let cache' := if obsPath.isSome then CacheFile.valid obs else cache
      scoreStep env site url obsPath obs cache' true

/-! ## Run environment, retry coordinator and orchestration
(src/main.py:230-372, 528-674, 1012-1030) -/

/-- The per-competitor entry of `audit_structure['competitors']`:
`root` and `screenshots` directories. -/
structure CompPaths where
  root : String
  screenshots : String
deriving DecidableEq, Repr

/-- The collaborators and ambient state one run sees: the capture stage
(browser plus operator interaction) as an oracle producing one result
entry, the audit structure, the model collaborator and the
`observation.json` state per site, the file system, and the operator's
answer to the retry prompt. -/
structure RunEnv where
  captureOf : Competitor → Option CompPaths → Entry
  auditInfo : String → Option CompPaths
  modelEnv : String → ModelEnv
  cacheOf : String → CacheFile
  fileExists : String → Bool
  retryAccepted : Bool

/-- Inter-analysis delay of the main scoring loop, in seconds
(src/main.py:594, `ANALYSIS_DELAY = 90`). -/
def ANALYSIS_DELAY : Nat := 90

/-- Inter-retry delay of the retry coordinator, in seconds
(src/main.py:280, `RETRY_DELAY = 60`). -/
def RETRY_DELAY : Nat := 60

/-- The quota-derived lower bound on the serialized inter-call delay, in
seconds: `cost_per_call / quota_per_minute` minutes. -/
def minInterCallDelaySeconds (costPerCall quotaPerMinute : Nat) : Nat :=
  (60 * costPerCall) / quotaPerMinute

/-- One capture-phase iteration (src/main.py:560-578): the capture
collaborator runs and the orchestrator's wrapper always stamps the
competitor's name and URL on the returned dictionary; a successful
capture carries `competitor_paths` through to analysis. -/
def captureEntry (env : RunEnv) (c : Competitor) : Entry :=
  let raw := env.captureOf c (env.auditInfo c.name)
  { raw with
    site_name := c.name, url := c.url,
    competitor_root :=
      if raw.success then (env.auditInfo c.name).map CompPaths.root else none }

/-- One main-loop analysis call (src/main.py:603-625): a plain run sets
no `_skip_observe`, so the default `True` applies. -/
def analyzeOneCapture (env : RunEnv) (d : Entry) : Entry :=
  (analyzeFromScreenshots (env.modelEnv d.site_name) d.site_name d.url
    d.competitor_root true (env.cacheOf d.site_name)).result

/-- Whether the retry coordinator can retry a failed entry
(src/main.py:291-309): the competitor's directory is known and both
`desktop.png` and `mobile.png` exist in its screenshots folder. -/
def canRetry (env : RunEnv) (r : Entry) : Bool :=
  match env.auditInfo r.site_name with
  | none => false
  | some p =>
    env.fileExists (p.screenshots ++ "/desktop.png")
      && env.fileExists (p.screenshots ++ "/mobile.png")

/-- The analysis call made for one accepted retry (src/main.py:311-321):
`capture_data` is rebuilt with only `site_name`, `url`,
`screenshot_paths` and `screenshot_metadata` — no `competitor_paths`
and no `_skip_observe` key. -/
def retryAnalyze (env : RunEnv) (r : Entry) : AnalyzeOutput :=
  analyzeFromScreenshots (env.modelEnv r.site_name) r.site_name r.url
    none true (env.cacheOf r.site_name)

/-- The result entry an accepted retry produces. -/
def retryOne (env : RunEnv) (r : Entry) : Entry :=
  (retryAnalyze env r).result

/-- `_retry_failed_competitors` (src/main.py:230-372). Returns the
updated result list together with the list of failed entries for which
an analysis call was actually made. Failures whose directory is unknown
or whose screenshots are missing go to `skipped_failures` unchanged and
are never analyzed; no capture function is invoked anywhere in the
coordinator. -/
def retryFailed (env : RunEnv) (results : List Entry) : List Entry × List Entry :=
  let failed := results.filter (fun r => !r.success)
  if failed.isEmpty then (results, [])
  else if !env.retryAccepted then (results, [])
  else
    let successful := results.filter (fun r => r.success)
    let toRetry := failed.filter (canRetry env)
    let skippedFailures := failed.filter (fun r => !canRetry env r)
    (successful ++ toRetry.map (retryOne env) ++ skippedFailures, toRetry)

/-- The sleeps the retry loop performs (src/main.py:354-357): after each
analyzed retry except when it is the last failed entry; skipped entries
`continue` before the sleep. -/
def retrySleeps (env : RunEnv) (results : List Entry) : List Nat :=
  let failed := results.filter (fun r => !r.success)
  if failed.isEmpty then []
  else if !env.retryAccepted then []
  else
    ((List.range failed.length).zip failed).filterMap
      (fun p => if canRetry env p.2 && p.1 + 1 < failed.length
                then some RETRY_DELAY else none)

/-- `analyze_competitors` (src/main.py:528-674): phase 1 captures every
competitor, phase 2 analyzes the successful captures sequentially, then
failed captures and analysis results are combined and, when failures
remain, the retry coordinator runs (`main` always passes an audit
structure). -/
def analyzeCompetitors (env : RunEnv) (competitors : List Competitor) : List Entry :=
  let captured := competitors.map (captureEntry env)
  let successfulCaptures := captured.filter (fun d => d.success)
  let failedCaptures := captured.filter (fun d => !d.success)
  let processed := successfulCaptures.map (analyzeOneCapture env)
  let results := failedCaptures ++ processed
  if (results.filter (fun r => !r.success)).isEmpty then results
  else (retryFailed env results).1

/-- The sleeps the main scoring loop performs (src/main.py:641-644):
`ANALYSIS_DELAY` after each analysis except the last. -/
def mainLoopSleeps (env : RunEnv) (competitors : List Competitor) : List Nat :=
  let captured := competitors.map (captureEntry env)
  List.replicate ((captured.filter (fun d => d.success)).length - 1) ANALYSIS_DELAY

/-- The audit summary record (`generate_audit_summary`,
src/src/utils/audit_organizer.py:927-963), restricted to the counting
fields the properties concern. -/
structure AuditSummary where
  total_competitors : Nat
  successful_analyses : Nat
  failed_analyses : Nat
deriving DecidableEq, Repr

/-- `generate_audit_summary` (src/src/utils/audit_organizer.py:927-963):
`total_competitors = len(competitors)` and the two counts are passed in
by `main` as `len(successful)` and `len(failed)` (src/main.py:1018-1030). -/
def generate_audit_summary (competitors : List Competitor)
    (successfulCount failedCount : Nat) : AuditSummary :=
  { total_competitors := competitors.length,
    successful_analyses := successfulCount,
    failed_analyses := failedCount }

/-- The summary `main` builds for a run (src/main.py:1017-1030). -/
def runSummary (env : RunEnv) (competitors : List Competitor) : AuditSummary :=
  let results := analyzeCompetitors env competitors
  generate_audit_summary competitors
    (results.filter (fun r => r.success)).length
    (results.filter (fun r => !r.success)).length

/-! ## Model-response handling of the Claude client
(src/src/analyzers/claude_analyzer.py) -/

/-- The markdown-fence extraction both passes apply to a model response
(src/src/analyzers/claude_analyzer.py:354-364 and 516-527): the text
between a ```json fence and the next ``` (stripped), else between the
first two ``` fences (stripped), else the whole response. A missing
closing fence reproduces Python's `find == -1` slice `[start:-1]`. -/
def extractJsonText (t : List Char) : List Char :=
  let fenceJson := "```json".data
  let fence := "```".data
  match findSub fenceJson t with
  | some i =>
    let rest := t.drop (i + 7)
    match findSub fence rest with
    | some j => pyStrip (rest.take j)
    | none => pyStrip (rest.take (rest.length - 1))
  | none =>
    match findSub fence t with
    | some i =>
      let rest := t.drop (i + 3)
      match findSub fence rest with
      | some j => pyStrip (rest.take j)
      | none => pyStrip (rest.take (rest.length - 1))
    | none => t

/-- The JSON text a pass tries to parse out of a response. -/
def jsonTextOf (responseText : String) : String :=
  ⟨extractJsonText responseText.data⟩

/-- Outcome of one pass's response handling: the returned dictionary's
fields plus every diagnostics file written as a `(path, contents)` pair. -/
structure PassOutput where
  success : Bool
  error : Option String := none
  raw_response : Option String := none
  payload : Option String := none
  debugWrites : List (String × String) := []
deriving DecidableEq, Repr

/-- Diagnostics file path used by `analyze_screenshots`
(src/src/analyzers/claude_analyzer.py:533-537):
`output/debug_malformed_json/{site_name.replace(' ', '_')}_{timestamp}.txt`. -/
def debugFilePath (siteName timestamp : String) : String :=
  "output/debug_malformed_json/" ++ siteName.replace " " "_"
    ++ "_" ++ timestamp ++ ".txt"

/-- Diagnostics file contents (src/src/analyzers/claude_analyzer.py:538-546):
header, the extracted JSON text, and the full raw response. -/
def debugContents (siteName jsonText responseText : String) : String :=
  "=== MALFORMED JSON DEBUG ===\n" ++ "Site: " ++ siteName ++ "\n\n"
    ++ "=== EXTRACTED JSON TEXT ===\n" ++ jsonText
    ++ "\n\n=== FULL RESPONSE ===\n" ++ responseText

/-- Response handling of `_observe_screenshots`
(src/src/analyzers/claude_analyzer.py:354-379): on a parse failure the
raw response is returned in `raw_response` and no file is written.
`jsonParse` is the oracle for `json.loads`. -/
def observeScreenshotsResponse (jsonParse : String → Option String)
    (responseText : String) : PassOutput :=
  let jsonText := jsonTextOf responseText
  match jsonParse jsonText with
  | some doc => { success := true, payload := some doc }
  | none =>
    { success := false,
      error := some "Failed to parse observation response as JSON",
      raw_response := some responseText }

/-- Response handling of `analyze_screenshots`
(src/src/analyzers/claude_analyzer.py:516-580): on a parse failure the
raw payload is first written to `output/debug_malformed_json/...`
(lines 531-546), the error is re-raised, and the handler returns a
failure with `raw_response = json_text`. `timestamp` models the audit
folder name taken from the screenshot path. -/
def analyzeScreenshotsResponse (jsonParse : String → Option String)
    (siteName timestamp responseText : String) : PassOutput :=
  let jsonText := jsonTextOf responseText
  match jsonParse jsonText with
  | some doc => { success := true, payload := some doc }
  | none =>
    { success := false,
      error := some "Failed to parse Claude response as JSON",
      raw_response := some jsonText,
      debugWrites := [(debugFilePath siteName timestamp,
                       debugContents siteName jsonText responseText)] }

/-! ## Helper lemmas about the two-pass evaluator -/

/-- Whether the cached file parses to an observation. -/
def CacheFile.parses : CacheFile → Bool
  | .valid _ => true
  | _ => false

theorem scoreStep_observeInvoked (env : ModelEnv) (site url : String)
    (obsPath : Option String) (obs : Observation) (cache : CacheFile) (inv : Bool) :
    (scoreStep env site url obsPath obs cache inv).observeInvoked = inv := by
  unfold scoreStep; cases env.score obs <;> rfl

theorem scoreStep_newCache (env : ModelEnv) (site url : String)
    (obsPath : Option String) (obs : Observation) (cache : CacheFile) (inv : Bool) :
    (scoreStep env site url obsPath obs cache inv).newCache = cache := by
  unfold scoreStep; cases env.score obs <;> rfl

theorem scoreStep_site_name (env : ModelEnv) (site url : String)
    (obsPath : Option String) (obs : Observation) (cache : CacheFile) (inv : Bool) :
    (scoreStep env site url obsPath obs cache inv).result.site_name = site := by
  unfold scoreStep; cases env.score obs <;> rfl

theorem scoreStep_result_irrel (env : ModelEnv) (site url : String)
    (obsPath : Option String) (obs : Observation) (c c' : CacheFile) (i i' : Bool) :
    (scoreStep env site url obsPath obs c i).result
      = (scoreStep env site url obsPath obs c' i').result := by
  unfold scoreStep; cases env.score obs <;> rfl

theorem scoreStep_success_file (env : ModelEnv) (site url : String)
    (obsPath : Option String) (obs : Observation) (cache : CacheFile) (inv : Bool)
    (h : (scoreStep env site url obsPath obs cache inv).result.success = true) :
    (scoreStep env site url obsPath obs cache inv).result.observation_file = obsPath := by
  unfold scoreStep at h ⊢
  revert h
  cases env.score obs with
  | error e => intro h; simp at h
  | ok _ => intro h; rfl

/-- Pass 1 is invoked exactly when reuse is impossible: no observation
path, or the file absent or unparseable, or a forced refresh. -/
theorem analyze_observeInvoked (env : ModelEnv) (site url : String)
    (root? : Option String) (skip : Bool) (cache : CacheFile) :
    (analyzeFromScreenshots env site url root? skip cache).observeInvoked
      = !(root?.isSome && cache.parses && skip) := by
  cases root? <;> cases cache <;> cases skip <;>
    cases hob : env.observe <;>
      simp [analyzeFromScreenshots, CacheFile.onDisk, CacheFile.parses, hob,
        scoreStep_observeInvoked]

/-- The cache after one analysis: untouched on reuse or observe failure,
overwritten with the fresh observation when pass 1 ran, succeeded, and a
path was known. -/
theorem analyze_newCache (env : ModelEnv) (site url : String)
    (root? : Option String) (skip : Bool) (cache : CacheFile) :
    (analyzeFromScreenshots env site url root? skip cache).newCache
      = if root?.isSome && cache.parses && skip then cache
        else match env.observe with
          | .error _ => cache
          | .ok obs => if root?.isSome then CacheFile.valid obs else cache := by
  cases root? <;> cases cache <;> cases skip <;>
    cases hob : env.observe <;>
      simp [analyzeFromScreenshots, CacheFile.onDisk, CacheFile.parses, hob,
        scoreStep_newCache]

/-- A cached file that fails to parse produces the same result (and the
same pass-1 invocation) as an absent cache. -/
theorem analyze_corrupt_as_absent (env : ModelEnv) (site url : String)
    (root? : Option String) (skip : Bool) :
    (analyzeFromScreenshots env site url root? skip CacheFile.corrupt).result
      = (analyzeFromScreenshots env site url root? skip CacheFile.absent).result
    ∧ (analyzeFromScreenshots env site url root? skip CacheFile.corrupt).observeInvoked
      = (analyzeFromScreenshots env site url root? skip CacheFile.absent).observeInvoked := by
  constructor
  · cases root? <;> cases skip <;>
      cases hob : env.observe <;>
        simp only [analyzeFromScreenshots, CacheFile.onDisk, hob] <;>
        first
          | rfl
          | exact scoreStep_result_irrel ..
  · rw [analyze_observeInvoked, analyze_observeInvoked]
    simp [CacheFile.parses]

theorem analyze_site_name (env : ModelEnv) (site url : String)
    (root? : Option String) (skip : Bool) (cache : CacheFile) :
    (analyzeFromScreenshots env site url root? skip cache).result.site_name = site := by
  cases root? <;> cases cache <;> cases skip <;>
    cases hob : env.observe <;>
      simp [analyzeFromScreenshots, CacheFile.onDisk, hob, scoreStep_site_name]

/-- A successful analysis records `observation_file` as the observation
path when one is known, `None` otherwise. -/
theorem analyze_success_file (env : ModelEnv) (site url : String)
    (root? : Option String) (skip : Bool) (cache : CacheFile)
    (h : (analyzeFromScreenshots env site url root? skip cache).result.success = true) :
    (analyzeFromScreenshots env site url root? skip cache).result.observation_file
      = root?.map (fun r => r ++ "/observation.json") := by
  cases root? <;> cases cache <;> cases skip <;>
    cases hob : env.observe <;>
      simp only [analyzeFromScreenshots, CacheFile.onDisk, hob] at h ⊢ <;>
      first
        | exact scoreStep_success_file _ _ _ _ _ _ _ h
        | simp at h

/-! ## C2: observation-cache reuse policy -/

/-- C2: for a competitor with an observation file path, the cached
Observation is reused (pass 1 not invoked) exactly when the file exists
and parses and no refresh was forced; reuse leaves the cache unchanged;
a forced refresh, and likewise an unparseable cached file, re-runs
pass 1 and overwrites the cache when the observation succeeds; and a
cached file that fails to parse behaves exactly like an absent cache —
the competitor is not failed by the parse failure itself. -/
theorem cache_reuse_policy (env : ModelEnv) (site url root : String)
    (skip : Bool) (cache : CacheFile) :
    ((analyzeFromScreenshots env site url (some root) skip cache).observeInvoked = false
      ↔ (skip = true ∧ ∃ o, cache = CacheFile.valid o))
    ∧ ((analyzeFromScreenshots env site url (some root) skip cache).observeInvoked = false
        → (analyzeFromScreenshots env site url (some root) skip cache).newCache = cache)
    ∧ (skip = false → ∀ o, env.observe = Except.ok o →
        (analyzeFromScreenshots env site url (some root) skip cache).newCache
          = CacheFile.valid o)
    ∧ (cache.parses = false → ∀ o, env.observe = Except.ok o →
        (analyzeFromScreenshots env site url (some root) skip cache).newCache
          = CacheFile.valid o)
    ∧ (analyzeFromScreenshots env site url (some root) skip CacheFile.corrupt).result
        = (analyzeFromScreenshots env site url (some root) skip CacheFile.absent).result
    ∧ (analyzeFromScreenshots env site url (some root) skip CacheFile.corrupt).observeInvoked
        = (analyzeFromScreenshots env site url (some root) skip CacheFile.absent).observeInvoked := by
  refine ⟨?_, ?_, ?_, ?_, (analyze_corrupt_as_absent env site url (some root) skip).1,
    (analyze_corrupt_as_absent env site url (some root) skip).2⟩
  · rw [analyze_observeInvoked]
    cases cache <;> cases skip <;>
      simp [CacheFile.parses]
  · intro h
    rw [analyze_observeInvoked] at h
    rw [analyze_newCache]
    cases cache <;> cases skip <;> simp_all [CacheFile.parses]
  · intro hskip o hob
    subst hskip
    rw [analyze_newCache, hob]
    cases cache <;> simp [CacheFile.parses]
  · intro hp o hob
    rw [analyze_newCache, hob, hp]
    simp

/-- Witness for C2 at concrete inputs: a valid cached observation with
the default `_skip_observe` is reused without invoking pass 1 and the
cache is unchanged; with a forced refresh the cache is overwritten. -/
theorem cache_reuse_policy_witness :
    (analyzeFromScreenshots
        ⟨Except.ok ⟨"fresh"⟩, fun _ => Except.ok ⟨"scored"⟩⟩
        "asos" "https://asos.com" (some "output/asos") true
        (CacheFile.valid ⟨"cached"⟩)).newCache = CacheFile.valid ⟨"cached"⟩
    ∧ (analyzeFromScreenshots
        ⟨Except.ok ⟨"fresh"⟩, fun _ => Except.ok ⟨"scored"⟩⟩
        "asos" "https://asos.com" (some "output/asos") false
        (CacheFile.valid ⟨"cached"⟩)).newCache = CacheFile.valid ⟨"fresh"⟩
    ∧ (analyzeFromScreenshots
        ⟨Except.ok ⟨"fresh"⟩, fun _ => Except.ok ⟨"scored"⟩⟩
        "asos" "https://asos.com" (some "output/asos") true
        CacheFile.corrupt).newCache = CacheFile.valid ⟨"fresh"⟩ :=
  ⟨(cache_reuse_policy ⟨Except.ok ⟨"fresh"⟩, fun _ => Except.ok ⟨"scored"⟩⟩
      "asos" "https://asos.com" "output/asos" true
      (CacheFile.valid ⟨"cached"⟩)).2.1 (by rfl),
   (cache_reuse_policy ⟨Except.ok ⟨"fresh"⟩, fun _ => Except.ok ⟨"scored"⟩⟩
      "asos" "https://asos.com" "output/asos" false
      (CacheFile.valid ⟨"cached"⟩)).2.2.1 rfl ⟨"fresh"⟩ rfl,
   (cache_reuse_policy ⟨Except.ok ⟨"fresh"⟩, fun _ => Except.ok ⟨"scored"⟩⟩
      "asos" "https://asos.com" "output/asos" true
      CacheFile.corrupt).2.2.2.1 rfl ⟨"fresh"⟩ rfl⟩

/-! ## C3: blocked captures -/

/-- A mixed capture round: one viewport blocked, one successful. -/
def mixedCaptures : List ViewportCapture :=
  [{ success := false, blocked := true, block_reason := some "Cloudflare challenge" },
   { success := true, filepath := some "output/asos/screenshots/mobile.png" }]

/-- C3 counterexample: the capture collaborator reports `blocked=true`
on the desktop viewport, yet because the mobile viewport succeeded the
orchestrator returns a successful capture with no `Blocked` outcome and
no block reason — the claim's "for every competitor ... on some
viewport" fails. -/
theorem blocked_claim_counterexample :
    (∃ r ∈ mixedCaptures, r.blocked = true)
    ∧ (classifyCapture "asos" "https://asos.com/bag" mixedCaptures).success = true
    ∧ (classifyCapture "asos" "https://asos.com/bag" mixedCaptures).blocked = false
    ∧ (classifyCapture "asos" "https://asos.com/bag" mixedCaptures).error = none := by
  refine ⟨⟨{ success := false, blocked := true,
             block_reason := some "Cloudflare challenge" }, ?_, rfl⟩, rfl, rfl, rfl⟩
  simp [mixedCaptures]

/-- C3 as amended: when no viewport capture succeeded and some failed
viewport reports `blocked=true`, the outcome is a blocked failure whose
error message embeds the first blocked viewport's `block_reason`
verbatim, never the generic "All screenshot captures failed". -/
theorem blocked_outcome_amended (site url : String) (rs : List ViewportCapture)
    (b : ViewportCapture)
    (hs : (rs.filter (fun r => r.success)).isEmpty = true)
    (hb : ((rs.filter (fun r => !r.success)).filter (fun r => r.blocked)).head? = some b) :
    (classifyCapture site url rs).success = false
    ∧ (classifyCapture site url rs).blocked = true
    ∧ (classifyCapture site url rs).error
        = some ("Site blocked by bot detection: " ++ b.block_reason.getD "Unknown")
    ∧ (classifyCapture site url rs).error ≠ some "All screenshot captures failed" := by
  have hne : ((rs.filter (fun r => !r.success)).filter (fun r => r.blocked)).isEmpty = false := by
    cases hl : (rs.filter (fun r => !r.success)).filter (fun r => r.blocked) with
    | nil => rw [hl] at hb; simp at hb
    | cons x xs => simp
  have hmsg : ∀ x : String,
      "Site blocked by bot detection: " ++ x ≠ "All screenshot captures failed" := by
    intro x h
    have hl := congrArg String.length h
    rw [String.length_append] at hl
    have h1 : ("Site blocked by bot detection: " : String).length = 31 := by decide
    have h2 : ("All screenshot captures failed" : String).length = 30 := by decide
    omega
  have hcls : classifyCapture site url rs
      = { success := false, site_name := site, url := url,
          error := some ("Site blocked by bot detection: "
                          ++ b.block_reason.getD "Unknown"),
          blocked := true } := by
    simp only [classifyCapture, hs, hb, hne, if_true, Bool.not_false]
  refine ⟨by rw [hcls], by rw [hcls], by rw [hcls], ?_⟩
  rw [hcls]
  intro h
  exact hmsg _ (Option.some.inj h)

/-! ## C3 witness input -/

/-- All-failed capture round whose first failed viewport is blocked. -/
def allBlockedCaptures : List ViewportCapture :=
  [{ success := false, blocked := true, block_reason := some "Access Denied detected" },
   { success := false }]

/-- Witness for C3 (amended) at a concrete all-failed, blocked round. -/
theorem blocked_outcome_amended_witness :
    (classifyCapture "zara" "https://zara.com/cart" allBlockedCaptures).blocked = true
    ∧ (classifyCapture "zara" "https://zara.com/cart" allBlockedCaptures).error
        ≠ some "All screenshot captures failed" :=
  ⟨(blocked_outcome_amended "zara" "https://zara.com/cart" allBlockedCaptures
      { success := false, blocked := true, block_reason := some "Access Denied detected" }
      (by decide) (by decide)).2.1,
   (blocked_outcome_amended "zara" "https://zara.com/cart" allBlockedCaptures
      { success := false, blocked := true, block_reason := some "Access Denied detected" }
      (by decide) (by decide)).2.2.2⟩

/-! ## C4: retry skips competitors without evidence files -/

/-- C4: a failed competitor whose screenshots are not all present is
left in the returned list unchanged and no analysis call is made for
it; moreover every entry the retry coordinator does analyze has both
evidence files present (it never captures anything). -/
theorem retry_skips_missing_evidence (env : RunEnv) (results : List Entry)
    (r : Entry) (p : CompPaths)
    (hmem : r ∈ results) (hfail : r.success = false)
    (hinfo : env.auditInfo r.site_name = some p)
    (hfiles : (env.fileExists (p.screenshots ++ "/desktop.png")
               && env.fileExists (p.screenshots ++ "/mobile.png")) = false) :
    r ∈ (retryFailed env results).1
    ∧ r ∉ (retryFailed env results).2
    ∧ ∀ e ∈ (retryFailed env results).2, canRetry env e = true := by
  have hcr : canRetry env r = false := by
    unfold canRetry; rw [hinfo]; exact hfiles
  simp only [retryFailed]
  split_ifs with h1 h2
  · exact ⟨hmem, by simp, by simp⟩
  · exact ⟨hmem, by simp, by simp⟩
  · refine ⟨?_, ?_, ?_⟩
    · apply List.mem_append.mpr
      refine Or.inr ?_
      exact List.mem_filter.mpr
        ⟨List.mem_filter.mpr ⟨hmem, by simp [hfail]⟩, by simp [hcr]⟩
    · intro hbad
      have := (List.mem_filter.mp hbad).2
      rw [hcr] at this
      exact Bool.false_ne_true this
    · intro e he
      exact (List.mem_filter.mp he).2

/-- Retry environment for the C4 witness: evidence files are absent. -/
def c4Env : RunEnv :=
  { captureOf := fun _ _ => { success := false, site_name := "", url := "" },
    auditInfo := fun _ => some ⟨"output/zara", "output/zara/screenshots"⟩,
    modelEnv := fun _ => ⟨Except.ok ⟨"obs"⟩, fun _ => Except.ok ⟨"score"⟩⟩,
    cacheOf := fun _ => CacheFile.absent,
    fileExists := fun _ => false,
    retryAccepted := true }

/-- The original failure entry for the C4 witness. -/
def c4Fail : Entry :=
  { success := false, site_name := "zara", url := "https://zara.com/cart",
    error := some "All screenshot captures failed" }

/-- Witness for C4: with both screenshots missing, the failure entry
survives retry unchanged and is never analyzed. -/
theorem retry_skips_missing_evidence_witness :
    c4Fail ∈ (retryFailed c4Env [c4Fail]).1
    ∧ c4Fail ∉ (retryFailed c4Env [c4Fail]).2 :=
  ⟨(retry_skips_missing_evidence c4Env [c4Fail] c4Fail
      ⟨"output/zara", "output/zara/screenshots"⟩
      (List.mem_singleton.mpr rfl) rfl rfl rfl).1,
   (retry_skips_missing_evidence c4Env [c4Fail] c4Fail
      ⟨"output/zara", "output/zara/screenshots"⟩
      (List.mem_singleton.mpr rfl) rfl rfl rfl).2.1⟩

/-! ## C5: retry does not consult the Evidence Cache -/

/-- Retry environment for the C5 counterexample: a parsed cached
observation exists for the competitor, retries accepted, evidence
present, model calls succeed. -/
def c5Env : RunEnv :=
  { captureOf := fun _ _ => { success := true, site_name := "", url := "" },
    auditInfo := fun _ => some ⟨"output/boots", "output/boots/screenshots"⟩,
    modelEnv := fun _ => ⟨Except.ok ⟨"fresh"⟩, fun _ => Except.ok ⟨"scored"⟩⟩,
    cacheOf := fun _ => CacheFile.valid ⟨"cached"⟩,
    fileExists := fun _ => true,
    retryAccepted := true }

/-- A failed entry to retry for C5/C6. -/
def c5Fail : Entry :=
  { success := false, site_name := "boots", url := "https://boots.com/basket",
    error := some "Failed to parse Claude response as JSON" }

/-- C5 counterexample: a cached Observation exists for the competitor
(`cacheOf` returns a parsed cache file), yet the accepted retry invokes
the observation collaborator again — the cache is not reused, because
the retry rebuilds `capture_data` without `competitor_paths`. -/
theorem retry_cache_claim_counterexample :
    c5Env.cacheOf "boots" = CacheFile.valid ⟨"cached"⟩
    ∧ (retryAnalyze c5Env c5Fail).observeInvoked = true := ⟨rfl, rfl⟩

/-- C5 as amended: an accepted retry re-enters at the observation stage
with no observation path, so pass 1 always re-runs, the cache is neither
read nor written, and the entry keeps the competitor's name. -/
theorem retry_reenters_at_observation (env : RunEnv) (r : Entry) :
    (retryAnalyze env r).observeInvoked = true
    ∧ (retryAnalyze env r).newCache = env.cacheOf r.site_name
    ∧ (retryAnalyze env r).result.site_name = r.site_name := by
  refine ⟨?_, ?_, analyze_site_name ..⟩
  · unfold retryAnalyze
    rw [analyze_observeInvoked]
    simp
  · unfold retryAnalyze
    rw [analyze_newCache]
    cases hob : (env.modelEnv r.site_name).observe <;> simp [hob]

/-! ## C6: observation_ref on Succeeded outcomes -/

theorem scoreStep_obsfile_none (env : ModelEnv) (site url : String)
    (obs : Observation) (cache : CacheFile) (inv : Bool) :
    (scoreStep env site url none obs cache inv).result.observation_file = none := by
  unfold scoreStep; cases env.score obs <;> rfl

/-- Without an observation path the recorded `observation_file` is
always `None`, whatever the outcome. -/
theorem analyze_obsfile_none (env : ModelEnv) (site url : String)
    (skip : Bool) (cache : CacheFile) :
    (analyzeFromScreenshots env site url none skip cache).result.observation_file
      = none := by
  cases cache <;> cases skip <;>
    cases hob : env.observe <;>
      simp only [analyzeFromScreenshots, CacheFile.onDisk, hob] <;>
      first
        | rfl
        | exact scoreStep_obsfile_none ..

/-- C6 counterexample: a retry that succeeds produces a `Succeeded`
entry whose `observation_file` is null — the retry path never threads
`competitor_paths`, so the traceability link is absent. -/
theorem succeeded_obsref_counterexample :
    (retryOne c5Env c5Fail).success = true
    ∧ (retryOne c5Env c5Fail).observation_file = none := ⟨rfl, rfl⟩

/-- C6 as amended: a successful analysis records
`observation_file = <root>/observation.json` whenever competitor paths
are present, but every retry-path result (successful or not) records
`observation_file = None`. -/
theorem succeeded_obsref_amended :
    (∀ (env : ModelEnv) (site url root : String) (skip : Bool) (cache : CacheFile),
      (analyzeFromScreenshots env site url (some root) skip cache).result.success = true →
      (analyzeFromScreenshots env site url (some root) skip cache).result.observation_file
        = some (root ++ "/observation.json"))
    ∧ ∀ (env : RunEnv) (r : Entry), (retryOne env r).observation_file = none := by
  constructor
  · intro env site url root skip cache h
    have hf := analyze_success_file env site url (some root) skip cache h
    simpa using hf
  · intro env r
    unfold retryOne retryAnalyze
    exact analyze_obsfile_none ..

/-- Witness for C6 (amended): a fully successful fresh analysis with
paths present records the observation path. -/
theorem succeeded_obsref_amended_witness :
    (analyzeFromScreenshots ⟨Except.ok ⟨"obs"⟩, fun _ => Except.ok ⟨"scored"⟩⟩
        "next" "https://next.co.uk/bag" (some "output/next") true
        CacheFile.absent).result.success = true
    ∧ (analyzeFromScreenshots ⟨Except.ok ⟨"obs"⟩, fun _ => Except.ok ⟨"scored"⟩⟩
        "next" "https://next.co.uk/bag" (some "output/next") true
        CacheFile.absent).result.observation_file
      = some "output/next/observation.json" :=
  ⟨rfl,
   succeeded_obsref_amended.1 ⟨Except.ok ⟨"obs"⟩, fun _ => Except.ok ⟨"scored"⟩⟩
     "next" "https://next.co.uk/bag" "output/next" true CacheFile.absent rfl⟩

/-! ## C7: serialized inter-call delay versus the quota -/

/-- C7: every delay the serialized scoring loop performs is the
configured `ANALYSIS_DELAY = 90` seconds, which is at least the
quota-derived minimum `cost_per_call / quota_per_minute` = 45 seconds
for 6000-token calls against an 8000 tokens/minute quota. -/
theorem serialized_delay_respects_quota :
    (∀ (env : RunEnv) (comps : List Competitor) (d : Nat),
        d ∈ mainLoopSleeps env comps →
        minInterCallDelaySeconds 6000 8000 ≤ d ∧ d = ANALYSIS_DELAY)
    ∧ minInterCallDelaySeconds 6000 8000 = 45
    ∧ ANALYSIS_DELAY = 90 := by
  refine ⟨?_, by decide, rfl⟩
  intro env comps d hd
  have hda : d = ANALYSIS_DELAY := List.eq_of_mem_replicate hd
  subst hda
  exact ⟨by decide, rfl⟩

/-- Run environment for C7/C8 witnesses: every capture succeeds,
every failed entry is retryable, retries accepted. -/
def demoRunEnv : RunEnv :=
  { captureOf := fun _ _ => { success := true, site_name := "", url := "" },
    auditInfo := fun _ => some ⟨"output/demo", "output/demo/screenshots"⟩,
    modelEnv := fun _ => ⟨Except.ok ⟨"obs"⟩, fun _ => Except.ok ⟨"scored"⟩⟩,
    cacheOf := fun _ => CacheFile.absent,
    fileExists := fun _ => true,
    retryAccepted := true }

/-- Two competitors, so the main loop sleeps exactly once. -/
def demoComps : List Competitor :=
  [⟨"amazon", "https://www.amazon.com/basket"⟩,
   ⟨"ebay", "https://www.ebay.co.uk/cart"⟩]

/-- Witness for C7: a two-competitor run sleeps 90 seconds between its
two scoring calls, at least the 45-second quota minimum. -/
theorem serialized_delay_respects_quota_witness :
    90 ∈ mainLoopSleeps demoRunEnv demoComps
    ∧ minInterCallDelaySeconds 6000 8000 ≤ 90 ∧ 90 = ANALYSIS_DELAY :=
  ⟨by decide,
   (serialized_delay_respects_quota.1 demoRunEnv demoComps 90 (by decide)).1,
   (serialized_delay_respects_quota.1 demoRunEnv demoComps 90 (by decide)).2⟩

/-! ## C8: retry delay versus the main-loop delay -/

/-- C8 counterexample: the retry coordinator's configured delay is 60
seconds while the Admission Controller's serialized scoring loop uses 90
seconds — the two inter-call delays are not equal. -/
theorem retry_delay_claim_counterexample :
    RETRY_DELAY = 60 ∧ ANALYSIS_DELAY = 90 ∧ RETRY_DELAY ≠ ANALYSIS_DELAY :=
  ⟨rfl, rfl, by decide⟩

/-- C8 as amended: retries run sequentially with a fixed
`RETRY_DELAY = 60` second delay between consecutive retries, which is
smaller than (not equal to) the main loop's 90-second delay. -/
theorem retry_delay_amended :
    (∀ (env : RunEnv) (results : List Entry) (d : Nat),
        d ∈ retrySleeps env results → d = RETRY_DELAY)
    ∧ RETRY_DELAY = 60 ∧ RETRY_DELAY < ANALYSIS_DELAY := by
  refine ⟨?_, rfl, by decide⟩
  intro env results d hd
  simp only [retrySleeps] at hd
  split_ifs at hd with h1 h2
  · simp at hd
  · simp at hd
  · rcases List.mem_filterMap.mp hd with ⟨a, _, hfa⟩
    split at hfa
    · exact (Option.some.inj hfa).symm
    · exact absurd hfa (by simp)

/-- Two retryable failures for the C8 witness. -/
def demoFailures : List Entry :=
  [{ success := false, site_name := "amazon", url := "https://www.amazon.com/basket",
     error := some "quota" },
   { success := false, site_name := "ebay", url := "https://www.ebay.co.uk/cart",
     error := some "quota" }]

/-- Witness for C8 (amended): retrying two failures sleeps exactly once,
for `RETRY_DELAY` seconds. -/
theorem retry_delay_amended_witness :
    60 ∈ retrySleeps demoRunEnv demoFailures ∧ 60 = RETRY_DELAY :=
  ⟨by decide, retry_delay_amended.1 demoRunEnv demoFailures 60 (by decide)⟩

/-! ## C9: diagnostics for malformed model payloads -/

/-- A `json.loads` oracle that always fails. -/
def parseNever : String → Option String := fun _ => none

/-- C9 counterexample: an observation-pass response that fails to parse
marks the pass failed but writes nothing to a diagnostics location —
only the scoring pass writes the malformed payload to disk. -/
theorem observe_diagnostics_counterexample :
    (observeScreenshotsResponse parseNever "not json").success = false
    ∧ (observeScreenshotsResponse parseNever "not json").debugWrites = [] :=
  ⟨rfl, rfl⟩

/-- C9 as amended: when the scoring pass fails to parse, the raw
payload is written to `output/debug_malformed_json/...` and the pass
fails; when the observation pass fails to parse, the pass fails and the
raw payload is only carried in the returned `raw_response`, with no
diagnostics file written. -/
theorem parse_failure_diagnostics_amended (jsonParse : String → Option String)
    (siteName timestamp responseText : String)
    (h : jsonParse (jsonTextOf responseText) = none) :
    ((analyzeScreenshotsResponse jsonParse siteName timestamp responseText).success = false
      ∧ (analyzeScreenshotsResponse jsonParse siteName timestamp responseText).debugWrites
          = [(debugFilePath siteName timestamp,
              debugContents siteName (jsonTextOf responseText) responseText)])
    ∧ ((observeScreenshotsResponse jsonParse responseText).success = false
      ∧ (observeScreenshotsResponse jsonParse responseText).raw_response = some responseText
      ∧ (observeScreenshotsResponse jsonParse responseText).debugWrites = []) := by
  simp only [analyzeScreenshotsResponse, observeScreenshotsResponse, h]
  simp

/-- Witness for C9 (amended) on a concrete malformed response. -/
theorem parse_failure_diagnostics_amended_witness :
    (analyzeScreenshotsResponse parseNever "asos site" "2026-02-27" "not json").debugWrites
      = [(debugFilePath "asos site" "2026-02-27",
          debugContents "asos site" (jsonTextOf "not json") "not json")]
    ∧ (observeScreenshotsResponse parseNever "not json").raw_response = some "not json" :=
  ⟨(parse_failure_diagnostics_amended parseNever "asos site" "2026-02-27" "not json" rfl).1.2,
   (parse_failure_diagnostics_amended parseNever "asos site" "2026-02-27" "not json" rfl).2.2.1⟩

/-! ## C1: one terminal outcome per competitor, counts partition -/

theorem retryOne_site_name (env : RunEnv) (r : Entry) :
    (retryOne env r).site_name = r.site_name := by
  unfold retryOne retryAnalyze
  exact analyze_site_name ..

/-- The retry coordinator permutes the result list: one entry per input
entry, names preserved as a multiset. -/
theorem sites_retryFailed (env : RunEnv) (results : List Entry) :
    (((retryFailed env results).1).map Entry.site_name).Perm
      (results.map Entry.site_name) := by
  simp only [retryFailed]
  split_ifs with h1 h2
  · exact List.Perm.refl _
  · exact List.Perm.refl _
  · rw [List.map_append, List.map_append, List.append_assoc]
    have hmap : (((results.filter (fun r => !r.success)).filter
          (canRetry env)).map (retryOne env)).map Entry.site_name
        = ((results.filter (fun r => !r.success)).filter
            (canRetry env)).map Entry.site_name := by
      rw [List.map_map]
      exact List.map_congr_left (fun a _ => retryOne_site_name env a)
    rw [hmap]
    have hinner : (((results.filter (fun r => !r.success)).filter
            (canRetry env)).map Entry.site_name
          ++ ((results.filter (fun r => !r.success)).filter
              (fun r => !canRetry env r)).map Entry.site_name).Perm
        ((results.filter (fun r => !r.success)).map Entry.site_name) := by
      rw [← List.map_append]
      exact (List.filter_append_perm _ _).map _
    refine List.Perm.trans (List.Perm.append_left _ hinner) ?_
    rw [← List.map_append]
    exact (List.filter_append_perm _ _).map _

/-- Phase 1 plus phase 2 produce one entry per competitor, with the
input names as the result names (up to the reordering that puts failed
captures first). -/
theorem sites_phase2 (env : RunEnv) (comps : List Competitor) :
    ((((comps.map (captureEntry env)).filter (fun d => !d.success))
        ++ (((comps.map (captureEntry env)).filter (fun d => d.success)).map
              (analyzeOneCapture env))).map Entry.site_name).Perm
      (comps.map Competitor.name) := by
  have hcap : (comps.map (captureEntry env)).map Entry.site_name
      = comps.map Competitor.name := by
    rw [List.map_map]
    exact List.map_congr_left (fun c _ => rfl)
  rw [List.map_append]
  have hmap : ((((comps.map (captureEntry env)).filter (fun d => d.success)).map
        (analyzeOneCapture env)).map Entry.site_name)
      = ((comps.map (captureEntry env)).filter (fun d => d.success)).map
          Entry.site_name := by
    rw [List.map_map]
    exact List.map_congr_left (fun d _ => analyze_site_name ..)
  rw [hmap, ← List.map_append, ← hcap]
  exact (List.Perm.trans List.perm_append_comm (List.filter_append_perm _ _)).map _

/-- C1: a run returns exactly one result entry per input competitor —
the result names are a permutation of the input names, the list lengths
agree, and the audit summary's `successful + failed` equals the
competitor count. -/
theorem run_outcome_partition (env : RunEnv) (comps : List Competitor) :
    (analyzeCompetitors env comps).length = comps.length
    ∧ ((analyzeCompetitors env comps).map Entry.site_name).Perm
        (comps.map Competitor.name)
    ∧ (runSummary env comps).successful_analyses
        + (runSummary env comps).failed_analyses
      = (runSummary env comps).total_competitors := by
  have hperm : ((analyzeCompetitors env comps).map Entry.site_name).Perm
      (comps.map Competitor.name) := by
    simp only [analyzeCompetitors]
    split_ifs with h1
    · exact sites_phase2 env comps
    · exact List.Perm.trans (sites_retryFailed env _) (sites_phase2 env comps)
  have hlen : (analyzeCompetitors env comps).length = comps.length := by
    have h := hperm.length_eq
    rwa [List.length_map, List.length_map] at h
  refine ⟨hlen, hperm, ?_⟩
  show ((analyzeCompetitors env comps).filter (fun r => r.success)).length
      + ((analyzeCompetitors env comps).filter (fun r => !r.success)).length
    = comps.length
  have h := (List.filter_append_perm (fun r => r.success)
    (analyzeCompetitors env comps)).length_eq
  rw [List.length_append] at h
  rw [h, hlen]

end UXAudit
